import Mathlib

/-!
# Verification of the `aws-learn` Express/DynamoDB application

A shallow embedding of the application's source files:

* `src/core/aws/dynamodb.mjs` — the `Dynamodb` document-client wrapper,
* `src/models/user.mjs`       — the `User` model,
* `src/controller/user.mjs`   — the user controllers (`getUser` and the
  `updateUser`/`deleteUser`/`loginUser` stubs),
* `src/middleware/error-handler.mjs` — the catch-all `errorHandler`,
* `src/routes/user.mjs`       — the user router registrations.

JavaScript values are embedded as the inductive type `Js`; JS objects are
association lists where a later binding overrides an earlier one, which gives
spread-merge (`{TableName, ...params}`) its JS semantics.  Effects that the
code obtains from the environment (the `uuid.v4()` identifier, the
`new Date().toISOString()` timestamp, the bcrypt `Password.hash` function and
the AWS document client's `send`) are passed as explicit arguments.
-/

/-- Model of a JavaScript value: `null`, `undefined`, booleans, numbers,
strings, plain objects (association lists of fields, later bindings win) and
arrays.  Arrays with non-index properties are outside the model; no code path
embedded here attaches properties to an array. -/
inductive Js where
  | null  : Js
  | undef : Js
  | bool (b : Bool) : Js
  | num (n : Int) : Js
  | str (s : String) : Js
  | obj (fields : List (String × Js)) : Js
  | arr (elems : List Js) : Js

/-- Look a key up in an object's field list.  A later binding overrides an
earlier one, exactly as in a JS object literal built with spreads. -/
def lookupLast : List (String × Js) → String → Option Js
  | [], _ => none
  | p :: rest, k =>
    match lookupLast rest k with
    | some v => some v
    | none => if p.1 == k then some p.2 else none

/-- JS property read on a field list: a missing key reads as `undefined`. -/
def objGet (fields : List (String × Js)) (k : String) : Js :=
  (lookupLast fields k).getD Js.undef

/-- JS property read on a value (`v.k`).  Reading a property of a non-object
yields `undefined` in the model; the embedded code only reads properties of
document-client responses, which are always objects. -/
def jsGetProp (v : Js) (k : String) : Js :=
  match v with
  | Js.obj fields => objGet fields k
  | _ => Js.undef

/-- JS array indexing (`a[i]`): out-of-range reads are `undefined`. -/
def jsIndex (v : Js) (i : Nat) : Js :=
  match v with
  | Js.arr elems => (elems.get? i).getD Js.undef
  | _ => Js.undef

/-- JS truthiness: `null`, `undefined`, `false`, `0` and `""` are falsy. -/
def truthy : Js → Bool
  | Js.null => false
  | Js.undef => false
  | Js.bool b => b
  | Js.num n => !(n == 0)
  | Js.str s => !(s == "")
  | Js.obj _ => true
  | Js.arr _ => true

/-- The JS `||` operator: the left operand when truthy, else the right. -/
def jsOr (a b : Js) : Js := if truthy a then a else b

/-- JS property assignment on a field list (`o.k = v`): an existing binding is
overwritten in place, a missing key is appended, matching JS insertion-order
semantics. -/
def objSet (fields : List (String × Js)) (k : String) (v : Js) :
    List (String × Js) :=
  if fields.any (fun p => p.1 == k) then
    fields.map (fun p => if p.1 == k then (k, v) else p)
  else
    fields ++ [(k, v)]

/-- The `TypeError` thrown by `user.password = "****"` when `user` is
`undefined` or `null` (ES modules are strict mode, so assigning a property of
any primitive also throws). -/
def typeErrorSettingPassword : Js :=
  Js.obj [("message",
    Js.str "Cannot set properties of undefined")]

/-- JS property assignment on a value, as `Except`: succeeds on an object,
throws a `TypeError` on `undefined`/`null` and on primitives (strict mode).
Arrays are returned unchanged (array-with-property values are outside the
model and unreachable in the embedded code paths). -/
def jsSetProp (v : Js) (k : String) (w : Js) : Except Js Js :=
  match v with
  | Js.obj fields => Except.ok (Js.obj (objSet fields k w))
  | Js.arr elems => Except.ok (Js.arr elems)
  | _ => Except.error typeErrorSettingPassword

/-- A command handed to the AWS document client's `send`: the command class
(`"Put"`, `"Query"`, …) and its input object. -/
structure Cmd where
  kind : String
  input : List (String × Js)

namespace Dynamodb

/-- `const TableName = "SocialApp"` (src/core/aws/dynamodb.mjs). -/
def TableName : String := "SocialApp"

/-- Input of the `PutCommand` built by `Dynamodb.create`:
`{ TableName, ...params }` — the default precedes the spread, so a caller's
`TableName` overrides it. -/
def createInput (params : List (String × Js)) : List (String × Js) :=
  ("TableName", Js.str TableName) :: params

/-- `Dynamodb.create(params)`: sends a `PutCommand` and returns its result
unchanged (the `try`/`catch` only logs and rethrows). -/
def create (send : Cmd → Js) (params : List (String × Js)) : Js :=
  send ⟨"Put", createInput params⟩

/-- Input of the `UpdateCommand` built by `Dynamodb.update`. -/
def updateInput (params : List (String × Js)) : List (String × Js) :=
  ("TableName", Js.str TableName) :: params

/-- `Dynamodb.update(params)`: sends an `UpdateCommand`, result unchanged. -/
def update (send : Cmd → Js) (params : List (String × Js)) : Js :=
  send ⟨"Update", updateInput params⟩

/-- Input of the `DeleteCommand` built by `Dynamodb.delete`. -/
def deleteInput (params : List (String × Js)) : List (String × Js) :=
  ("TableName", Js.str TableName) :: params

/-- `Dynamodb.delete(params)`: sends a `DeleteCommand`, result unchanged. -/
def deleteItem (send : Cmd → Js) (params : List (String × Js)) : Js :=
  send ⟨"Delete", deleteInput params⟩

/-- Input of the `GetCommand` built by `Dynamodb.get`. -/
def getInput (params : List (String × Js)) : List (String × Js) :=
  ("TableName", Js.str TableName) :: params

/-- `Dynamodb.get(params)`: sends a `GetCommand`, result unchanged. -/
def get (send : Cmd → Js) (params : List (String × Js)) : Js :=
  send ⟨"Get", getInput params⟩

/-- Input of the `QueryCommand` built by `Dynamodb.query`:
`KeyConditionExpression` defaults to `"PK = :pk"` via `||`,
`ExpressionAttributeValues` defaults to `{":pk": ""}` via `||`, and
`{TableName, KeyConditionExpression, ExpressionAttributeValues, ...params}`
lets the caller's params override all three defaults. -/
def queryInput (params : List (String × Js)) : List (String × Js) :=
  let kce := jsOr (objGet params "KeyConditionExpression") (Js.str "PK = :pk")
  let eav := jsOr (objGet params "ExpressionAttributeValues")
      (Js.obj [(":pk", Js.str "")])
  ("TableName", Js.str TableName) ::
  ("KeyConditionExpression", kce) ::
  ("ExpressionAttributeValues", eav) :: params

/-- `Dynamodb.query(params)`: sends a `QueryCommand` and returns
`result.Items[0]` — the first element of the response's `Items` array, not
the response itself. -/
def query (send : Cmd → Js) (params : List (String × Js)) : Js :=
  jsIndex (jsGetProp (send ⟨"Query", queryInput params⟩) "Items") 0

/-- Input of the `ScanCommand` built by `Dynamodb.scan`.  The source
destructures `{ limit = 20, startKey = undefined, ...rest }` (a destructuring
default applies exactly when the value is `undefined`) and sends
`{TableName, Limit: limit, ExclusiveStartKey: startKey, ...rest}`. -/
def scanInput (params : List (String × Js)) : List (String × Js) :=
  let limit := match objGet params "limit" with
    | Js.undef => Js.num 20
    | v => v
  let startKey := objGet params "startKey"
  let rest := params.filter (fun p => !(p.1 == "limit" || p.1 == "startKey"))
  ("TableName", Js.str TableName) ::
  ("Limit", limit) ::
  ("ExclusiveStartKey", startKey) :: rest

/-- `Dynamodb.scan(params)`: sends a `ScanCommand` and returns the reshaped
object `{ items: data.Items, nextKey: data.LastEvaluatedKey }`, not the
response itself. -/
def scan (send : Cmd → Js) (params : List (String × Js)) : Js :=
  let data := send ⟨"Scan", scanInput params⟩
  Js.obj [("items", jsGetProp data "Items"),
          ("nextKey", jsGetProp data "LastEvaluatedKey")]

end Dynamodb

namespace User

/-- The `Item` object built by `User.create` (src/models/user.mjs).  `userId`
stands for the fresh `uuid.v4()`, `now` for `new Date().toISOString()` (used
for both timestamps), and `hashPassword` for `await Password.hash(password)`;
`name`, `email`, `mobile` are the fields destructured from the request
params. -/
def createItem (userId now : String) (hashPassword : Js)
    (name email mobile : Js) : List (String × Js) :=
  [("PK", Js.str ("USER#" ++ userId)),
   ("SK", Js.str ("PROFILE#" ++ userId)),
   ("entityType", Js.str "USER"),
   ("name", name),
   ("email", email),
   ("userId", Js.str userId),
   ("mobile", mobile),
   ("password", hashPassword),
   ("active", Js.bool true),
   ("avatar", Js.null),
   ("createdAt", Js.str now),
   ("updatedAt", Js.str now)]

/-- The argument object `User.create` passes to `db.create`:
`{ Item, ConditionExpression: "attribute_not_exists(PK)" }`. -/
def createParams (userId now : String) (hashPassword : Js)
    (name email mobile : Js) : List (String × Js) :=
  [("Item", Js.obj (createItem userId now hashPassword name email mobile)),
   ("ConditionExpression", Js.str "attribute_not_exists(PK)")]

/-- `User.create(params)`: destructures `name`, `email`, `mobile`, `password`
from `params`, hashes the password (`bhash` is the abstract model of the
bcrypt `Password.hash`), builds the item and calls `db.create`.  The effects
`uuid.v4()` and `new Date().toISOString()` are the explicit arguments
`userId` and `now`. -/
def create (send : Cmd → Js) (bhash : Js → Js) (userId now : String)
    (params : List (String × Js)) : Js :=
  let name := objGet params "name"
  let email := objGet params "email"
  let mobile := objGet params "mobile"
  let password := objGet params "password"
  let hashPassword := bhash password
  Dynamodb.create send (createParams userId now hashPassword name email mobile)

/-- `User.getUser(userId)`:
`db.query({ ExpressionAttributeValues: { ":pk": userId } })` — the raw
`userId` string is bound to `:pk`, with no `USER#` prefix. -/
def getUser (send : Cmd → Js) (userId : String) : Js :=
  Dynamodb.query send [("ExpressionAttributeValues",
    Js.obj [(":pk", Js.str userId)])]

/-- `User.getUsers(params = {})`: `db.scan(params)`. -/
def getUsers (send : Cmd → Js) (params : List (String × Js)) : Js :=
  Dynamodb.scan send params

end User

/-! ## Model of the external DynamoDB table

The application's table is modelled as a list of stored items (each an
object's field list).  Only what the embedded code exercises is modelled: a
`Query` whose key condition is the literal `"PK = :pk"` filters the stored
items by string equality of their `PK` attribute with the bound `:pk` value,
and a conditional `Put` with `attribute_not_exists(PK)` fails exactly when an
item with the same primary key (`PK`, `SK`) already exists (every stored item
carries its `PK` attribute, so the condition reduces to key existence). -/

/-- A stored item is an object's field list. -/
abbrev Item : Type := List (String × Js)

/-- The table contents. -/
abbrev DbStore : Type := List Item

/-- DynamoDB key equality for the condition `PK = :pk`: key attributes here
are strings, compared by string equality. -/
def jsStrEq (a b : Js) : Bool :=
  match a, b with
  | Js.str x, Js.str y => x == y
  | _, _ => false

/-- The items a `Query` with key condition `"PK = :pk"` returns: the stored
items whose `PK` attribute equals the bound value. -/
def ddbQuery (store : DbStore) (pkVal : Js) : DbStore :=
  store.filter (fun it => jsStrEq (objGet it "PK") pkVal)

/-- Whether the `attribute_not_exists(PK)` condition of a conditional `Put`
fails: it does exactly when the table already holds an item with the same
`PK` and `SK` as the item being put. -/
def putCondFails (store : DbStore) (item : Item) : Bool :=
  store.any (fun it =>
    jsStrEq (objGet it "PK") (objGet item "PK") &&
    jsStrEq (objGet it "SK") (objGet item "SK"))

/-- The document client's `send` backed by a table state: a `Query` command
whose key condition is the default `"PK = :pk"` returns
`{ Items: [...], Count: n }` computed by `ddbQuery`; other commands return an
empty response object (none of their response fields is read by the embedded
code paths under verification). -/
def storeSend (store : DbStore) : Cmd → Js := fun cmd =>
  if cmd.kind == "Query" then
    match objGet cmd.input "KeyConditionExpression" with
    | Js.str kce =>
      if kce == "PK = :pk" then
        let pkVal := jsGetProp (objGet cmd.input "ExpressionAttributeValues")
            ":pk"
        let found := ddbQuery store pkVal
        Js.obj [("Items", Js.arr (found.map Js.obj)),
                ("Count", Js.num found.length)]
      else Js.obj [("Items", Js.arr [])]
    | _ => Js.obj [("Items", Js.arr [])]
  else Js.obj []

/-! ## HTTP layer -/

/-- The observable part of an Express response: the status code set by
`res.status(...)` and the JSON body sent by `.json(...)`. -/
structure HttpResponse where
  status : Nat
  body : Js

/-- `errorHandler(error, req, res, next)`
(src/middleware/error-handler.mjs): always
`res.status(500).json({ error: { message: error.message } })`, for every
error value. -/
def errorHandler (error : Js) : HttpResponse :=
  ⟨500, Js.obj [("error", Js.obj [("message", jsGetProp error "message")])]⟩

/-- The `getUser` controller (src/controller/user.mjs): fetches
`User.getUser(userId)`, assigns `user.password = "****"` (which throws when
`user` is `undefined`), and on success responds
`200 {data, message: "Fetch user", success: true}`; a thrown error is passed
to `next`. -/
def getUserCtrl (send : Cmd → Js) (userId : String) :
    Except Js HttpResponse :=
  let user := User.getUser send userId
  match jsSetProp user "password" (Js.str "****") with
  | Except.error e => Except.error e
  | Except.ok masked =>
    Except.ok ⟨200, Js.obj [("data", masked),
                            ("message", Js.str "Fetch user"),
                            ("success", Js.bool true)]⟩

/-- The `GET /:userId` pipeline as Express runs it: the `getUser` controller,
with an error forwarded by `next` landing in the catch-all `errorHandler`. -/
def getUserRoute (send : Cmd → Js) (userId : String) : HttpResponse :=
  match getUserCtrl send userId with
  | Except.ok r => r
  | Except.error e => errorHandler e

/-- An incoming request, as far as the embedded handlers look at it:
path params and parsed JSON body. -/
structure Request where
  params : List (String × Js)
  body : List (String × Js)

/-- What running one handler produces: the table state afterwards, the
response it sent (if any), and the error it forwarded to `next` (if any). -/
structure HandlerOut where
  store : DbStore
  response : Option HttpResponse
  forwardedError : Option Js

/-- The `updateUser` handler (src/controller/user.mjs): its body is
`try { } catch (error) { next(error) }` — an empty `try` block, so it issues
no database operation, sends no response and forwards no error. -/
def updateUser (store : DbStore) (_req : Request) : HandlerOut :=
  ⟨store, none, none⟩

/-- The `deleteUser` handler: same empty `try { } catch` body. -/
def deleteUser (store : DbStore) (_req : Request) : HandlerOut :=
  ⟨store, none, none⟩

/-- The `loginUser` handler: same empty `try { } catch` body. -/
def loginUser (store : DbStore) (_req : Request) : HandlerOut :=
  ⟨store, none, none⟩

/-- HTTP methods used by the user router. -/
inductive Method where
  | get : Method
  | post : Method
  | put : Method
  | delete : Method
deriving DecidableEq

/-- The route registrations of src/routes/user.mjs, in source order:
method, path, controller name. -/
def userRoute : List (Method × String × String) :=
  [(Method.get, "/", "getUsers"),
   (Method.get, "/:userId", "getUser"),
   (Method.post, "/", "createUser"),
   (Method.put, "/:userId", "updateUser"),
   (Method.delete, "/:userId", "deleteUser")]

/-! ## Helper lemmas -/

/-- A string that gains the nonempty prefix `USER#` is never unchanged. -/
theorem user_prefix_ne (u : String) : "USER#" ++ u ≠ u := by
  intro h
  have hl := congrArg String.length h
  rw [String.length_append] at hl
  have h5 : ("USER#" : String).length = 5 := rfl
  omega

/-- `jsStrEq` only identifies equal string values. -/
theorem jsStrEq_eq {a b : Js} (h : jsStrEq a b = true) : a = b := by
  cases a <;> cases b <;> simp_all [jsStrEq]

/-- Overwriting a field twice is the same as overwriting it once. -/
theorem objSet_objSet (l : List (String × Js)) (k : String) (v w : Js) :
    objSet (objSet l k v) k w = objSet l k w := by
  by_cases h : l.any (fun p => p.1 == k) = true
  · obtain ⟨q, hq, hqk⟩ := List.any_eq_true.mp h
    have hmem : ((l.map (fun p => if p.1 == k then (k, v) else p)).any
        (fun p => p.1 == k)) = true := by
      rw [List.any_eq_true]
      refine ⟨(k, v), ?_, by simp⟩
      have hm := List.mem_map_of_mem
        (fun p => if p.1 == k then (k, v) else p) hq
      simpa [hqk] using hm
    unfold objSet
    rw [if_pos h, if_pos hmem, if_pos h, List.map_map]
    refine List.map_congr_left (fun p _ => ?_)
    by_cases hp : p.1 == k <;> simp [hp, Function.comp]
  · have hmapid : ∀ u : Js,
        l.map (fun p => if p.1 == k then (k, u) else p) = l := by
      intro u
      conv_rhs => rw [← List.map_id l]
      refine List.map_congr_left (fun p hp => ?_)
      have hfalse : (p.1 == k) = false := by
        rcases Bool.eq_false_or_eq_true (p.1 == k) with ht | hf
        · exact absurd (List.any_eq_true.mpr ⟨p, hp, ht⟩) h
        · exact hf
      simp [hfalse]
    have hmem : ((l ++ [(k, v)]).any (fun p => p.1 == k)) = true := by simp
    unfold objSet
    rw [if_neg h, if_pos hmem, if_neg h, List.map_append, hmapid]
    simp


/-- A key that no field carries looks up to `none`. -/
theorem lookupLast_eq_none (l : List (String × Js)) (k : String)
    (h : l.any (fun p => p.1 == k) = false) :
    lookupLast l k = none := by
  induction l with
  | nil => rfl
  | cons p rest ih =>
    rw [List.any_cons, Bool.or_eq_false_iff] at h
    simp [lookupLast, ih h.2, h.1]

/-- In-place replacement of the `k` bindings makes the lookup return the new
value, provided some field carries `k`. -/
theorem lookupLast_map_set_self (l : List (String × Js)) (k : String)
    (v : Js) (h : l.any (fun p => p.1 == k) = true) :
    lookupLast (l.map (fun p => if p.1 == k then (k, v) else p)) k
      = some v := by
  induction l with
  | nil => simp at h
  | cons p rest ih =>
    rw [List.map_cons]
    by_cases hrest : rest.any (fun p => p.1 == k) = true
    · simp only [lookupLast]
      rw [ih hrest]
    · have hp : (p.1 == k) = true := by
        rw [List.any_cons, Bool.or_eq_true] at h
        rcases h with hp | hr
        · exact hp
        · exact absurd hr hrest
      have hmapnone : lookupLast (rest.map fun p =>
          if p.1 == k then (k, v) else p) k = none := by
        apply lookupLast_eq_none
        rw [Bool.eq_false_iff]
        intro hc
        rcases List.any_eq_true.mp hc with ⟨q, hq, hqk⟩
        rcases List.mem_map.mp hq with ⟨r, hr, rfl⟩
        apply hrest
        refine List.any_eq_true.mpr ⟨r, hr, ?_⟩
        by_cases hrk : (r.1 == k) = true
        · exact hrk
        · rw [if_neg hrk] at hqk
          exact absurd hqk hrk
      simp only [lookupLast]
      rw [hmapnone, if_pos hp]
      simp

/-- In-place replacement of the `k` bindings does not affect lookups at other
keys. -/
theorem lookupLast_map_set_ne (l : List (String × Js)) (k k' : String)
    (v : Js) (h : k' ≠ k) :
    lookupLast (l.map (fun p => if p.1 == k then (k, v) else p)) k'
      = lookupLast l k' := by
  induction l with
  | nil => rfl
  | cons p rest ih =>
    rw [List.map_cons]
    simp only [lookupLast, ih]
    by_cases hp : (p.1 == k) = true
    · have hp1 : p.1 = k := beq_iff_eq.mp hp
      have hkk' : (k == k') = false := by
        rw [beq_eq_false_iff_ne]
        exact fun e => h e.symm
      have hpk' : (p.1 == k') = false := by
        rw [hp1]
        exact hkk'
      rw [if_pos hp]
      cases lookupLast rest k' <;> simp [hkk', hpk']
    · rw [if_neg hp]

/-- Appending a `k` binding makes the lookup at `k` return it. -/
theorem lookupLast_append_self (l : List (String × Js)) (k : String)
    (v : Js) :
    lookupLast (l ++ [(k, v)]) k = some v := by
  induction l with
  | nil => simp [lookupLast]
  | cons p rest ih => simp [lookupLast, ih]

/-- Appending a `k` binding does not affect lookups at other keys. -/
theorem lookupLast_append_ne (l : List (String × Js)) (k k' : String)
    (v : Js) (h : k' ≠ k) :
    lookupLast (l ++ [(k, v)]) k' = lookupLast l k' := by
  induction l with
  | nil =>
    have : (k == k') = false := by
      rw [beq_eq_false_iff_ne]
      exact fun e => h e.symm
    simp [lookupLast, this]
  | cons p rest ih => simp [lookupLast, ih]

/-- Reading back the field just written returns the written value. -/
theorem objGet_objSet_self (l : List (String × Js)) (k : String) (v : Js) :
    objGet (objSet l k v) k = v := by
  unfold objSet objGet
  by_cases h : l.any (fun p => p.1 == k) = true
  · rw [if_pos h, lookupLast_map_set_self l k v h]
    rfl
  · rw [if_neg h, lookupLast_append_self]
    rfl

/-- Writing one field does not change the value read at another key. -/
theorem objGet_objSet_ne (l : List (String × Js)) (k k' : String) (v : Js)
    (h : k' ≠ k) :
    objGet (objSet l k v) k' = objGet l k' := by
  unfold objSet objGet
  by_cases hany : l.any (fun p => p.1 == k) = true
  · rw [if_pos hany, lookupLast_map_set_ne l k k' v h]
  · rw [if_neg hany, lookupLast_append_ne l k k' v h]

/-- Running `User.getUser` against a table state: the issued query filters
the store by `PK =` the raw `userId`, and the wrapper returns the first
element of the resulting `Items` array. -/
theorem getUser_storeSend (store : DbStore) (userId : String) :
    User.getUser (storeSend store) userId =
      jsIndex (Js.arr ((ddbQuery store (Js.str userId)).map Js.obj)) 0 := rfl

/-! ## Claims -/

/-- C3: for every error object passed to the `errorHandler` middleware,
regardless of the error's type or content, the response has HTTP status 500
and JSON body `{error: {message: m}}` where `m` is the error's raw
`message`; the error path produces no other status code. -/
theorem c3_errorHandler_always_500 (e : Js) :
    (errorHandler e).status = 500 ∧
    (errorHandler e).body =
      Js.obj [("error", Js.obj [("message", jsGetProp e "message")])] :=
  ⟨rfl, rfl⟩

/-- C8: the `updateUser`, `deleteUser` and `loginUser` handlers are empty
stubs: for every table state and request they issue no database operation,
leave the stored User items unchanged, send no response and forward no
error. -/
theorem c8_stub_handlers_no_effect (store : DbStore) (req : Request) :
    updateUser store req = ⟨store, none, none⟩ ∧
    deleteUser store req = ⟨store, none, none⟩ ∧
    loginUser store req = ⟨store, none, none⟩ :=
  ⟨rfl, rfl, rfl⟩

/-- C5 (counterexample): the claim that a handler is registered for each of
GET, POST, PUT, DELETE at path `/:userId` is false — the user router has no
POST registration at `/:userId` (the `createUser` POST route is registered
at `"/"`). -/
theorem c5_no_post_at_userId :
    userRoute.filter
      (fun r => r.1 == Method.post && r.2.1 == "/:userId") = [] := by
  decide

/-- C5 (amended): the user router registers GET, PUT and DELETE handlers at
`/:userId`, while the POST (`createUser`) handler is registered at the
router's root path `"/"` (where the GET list handler also lives). -/
theorem c5_route_registrations :
    (Method.get, "/:userId", "getUser") ∈ userRoute ∧
    (Method.put, "/:userId", "updateUser") ∈ userRoute ∧
    (Method.delete, "/:userId", "deleteUser") ∈ userRoute ∧
    (Method.post, "/", "createUser") ∈ userRoute ∧
    (Method.get, "/", "getUsers") ∈ userRoute := by
  decide

/-- C4 (counterexample): `Dynamodb.query` is not a one-to-one passthrough:
with a document client that answers every command with the response object
`{Items: ["w"]}`, `query` returns the string `"w"` — `result.Items[0]` —
and not the response object that the single underlying call returned. -/
theorem c4_query_not_passthrough :
    Dynamodb.query (fun _ => Js.obj [("Items", Js.arr [Js.str "w"])]) [] ≠
      (fun _ : Cmd => Js.obj [("Items", Js.arr [Js.str "w"])])
        ⟨"Query", Dynamodb.queryInput []⟩ := by
  intro h
  have hl : Dynamodb.query
      (fun _ => Js.obj [("Items", Js.arr [Js.str "w"])]) [] = Js.str "w" :=
    rfl
  rw [hl] at h
  exact Js.noConfusion h

/-- C4 (amended): `get`, `create` (put), `update` and `delete` are one-to-one
passthroughs, returning exactly the result of the single underlying
document-client call after default-parameter merging; `query` instead
returns `Items[0]` of that result, and `scan` returns the reshaped
`{items, nextKey}` projection of that result. -/
theorem c4_wrapper_shapes (send : Cmd → Js) (params : List (String × Js)) :
    Dynamodb.get send params = send ⟨"Get", Dynamodb.getInput params⟩ ∧
    Dynamodb.create send params = send ⟨"Put", Dynamodb.createInput params⟩ ∧
    Dynamodb.update send params =
      send ⟨"Update", Dynamodb.updateInput params⟩ ∧
    Dynamodb.deleteItem send params =
      send ⟨"Delete", Dynamodb.deleteInput params⟩ ∧
    Dynamodb.query send params =
      jsIndex (jsGetProp (send ⟨"Query", Dynamodb.queryInput params⟩)
        "Items") 0 ∧
    Dynamodb.scan send params =
      Js.obj [("items",
          jsGetProp (send ⟨"Scan", Dynamodb.scanInput params⟩) "Items"),
        ("nextKey",
          jsGetProp (send ⟨"Scan", Dynamodb.scanInput params⟩)
            "LastEvaluatedKey")] :=
  ⟨rfl, rfl, rfl, rfl, rfl, rfl⟩

/-- C1: for every call to `User.create` with `name`, `email`, `mobile` and
`password` fields, the item written to DynamoDB (via the conditional put)
has `PK = "USER#" + userId` and `SK = "PROFILE#" + userId` for the freshly
generated `userId`, with `entityType "USER"`, the given `name`, `email` and
`mobile`, the bcrypt hash of the password rather than the plaintext,
`active = true`, and `createdAt` equal to `updatedAt`. -/
theorem c1_create_item_shape (send : Cmd → Js) (bhash : Js → Js)
    (userId now : String) (params : List (String × Js))
    (hbcrypt : bhash (objGet params "password") ≠ objGet params "password") :
    User.create send bhash userId now params =
      send ⟨"Put", Dynamodb.createInput (User.createParams userId now
        (bhash (objGet params "password")) (objGet params "name")
        (objGet params "email") (objGet params "mobile"))⟩ ∧
    (let item := User.createItem userId now
        (bhash (objGet params "password")) (objGet params "name")
        (objGet params "email") (objGet params "mobile")
     objGet item "PK" = Js.str ("USER#" ++ userId) ∧
     objGet item "SK" = Js.str ("PROFILE#" ++ userId) ∧
     objGet item "entityType" = Js.str "USER" ∧
     objGet item "name" = objGet params "name" ∧
     objGet item "email" = objGet params "email" ∧
     objGet item "mobile" = objGet params "mobile" ∧
     objGet item "password" = bhash (objGet params "password") ∧
     objGet item "password" ≠ objGet params "password" ∧
     objGet item "active" = Js.bool true ∧
     objGet item "createdAt" = objGet item "updatedAt") :=
  ⟨rfl, rfl, rfl, rfl, rfl, rfl, rfl, rfl, hbcrypt, rfl, rfl⟩

/-- C1 (witness): a concrete `User.create` call, with a stub bcrypt whose
output differs from the plaintext, hits the hypothesis and the conclusion. -/
theorem c1_create_item_shape_witness :
    (fun _ : Js => Js.str "hashed1") (objGet [("name", Js.str "alice"),
        ("email", Js.str "ae"), ("mobile", Js.str "07"),
        ("password", Js.str "secret1")] "password") ≠
      objGet [("name", Js.str "alice"), ("email", Js.str "ae"),
        ("mobile", Js.str "07"), ("password", Js.str "secret1")]
        "password" ∧
    User.create (fun _ => Js.obj []) (fun _ : Js => Js.str "hashed1") "u1"
        "t1" [("name", Js.str "alice"), ("email", Js.str "ae"),
        ("mobile", Js.str "07"), ("password", Js.str "secret1")] =
      (fun _ : Cmd => Js.obj []) ⟨"Put", Dynamodb.createInput
        (User.createParams "u1" "t1" (Js.str "hashed1") (Js.str "alice")
          (Js.str "ae") (Js.str "07"))⟩ := by
  have hne : (fun _ : Js => Js.str "hashed1") (objGet
      [("name", Js.str "alice"), ("email", Js.str "ae"),
       ("mobile", Js.str "07"), ("password", Js.str "secret1")]
      "password") ≠
      objGet [("name", Js.str "alice"), ("email", Js.str "ae"),
        ("mobile", Js.str "07"), ("password", Js.str "secret1")]
        "password" := by
    intro h
    exact absurd (Js.str.inj h) (by decide)
  exact ⟨hne, (c1_create_item_shape (fun _ => Js.obj [])
    (fun _ : Js => Js.str "hashed1") "u1" "t1"
    [("name", Js.str "alice"), ("email", Js.str "ae"),
     ("mobile", Js.str "07"), ("password", Js.str "secret1")] hne).1⟩

/-- C2: `User.getUser(userId)` issues a query whose key condition is the
default `"PK = :pk"` with `:pk` bound to the raw `userId` string, while
`User.create` stores items under `PK = "USER#" + userId`; consequently,
whatever the table contents, the create/getUser round trip never returns
the created item. -/
theorem c2_getUser_never_returns_created (userId now : String)
    (hashPassword name email mobile : Js) :
    (∀ send : Cmd → Js, User.getUser send userId =
      jsIndex (jsGetProp (send ⟨"Query",
        [("TableName", Js.str "SocialApp"),
         ("KeyConditionExpression", Js.str "PK = :pk"),
         ("ExpressionAttributeValues", Js.obj [(":pk", Js.str userId)]),
         ("ExpressionAttributeValues", Js.obj [(":pk", Js.str userId)])]⟩)
        "Items") 0) ∧
    (∀ store : DbStore, User.getUser (storeSend store) userId ≠
      Js.obj (User.createItem userId now hashPassword name email mobile)) := by
  constructor
  · intro send
    rfl
  · intro store
    rw [getUser_storeSend]
    cases hq : ddbQuery store (Js.str userId) with
    | nil =>
      intro h
      exact Js.noConfusion h
    | cons it rest =>
      intro h
      have hmem : it ∈ ddbQuery store (Js.str userId) := by
        rw [hq]
        exact List.mem_cons_self it rest
      have hpred := (List.mem_filter.mp hmem).2
      have hpk : objGet it "PK" = Js.str userId := jsStrEq_eq hpred
      have hit : Js.obj it = Js.obj (User.createItem userId now hashPassword
          name email mobile) := h
      have hiteq : it = User.createItem userId now hashPassword name email
          mobile := Js.obj.inj hit
      rw [hiteq] at hpk
      have hpk' : Js.str ("USER#" ++ userId) = Js.str userId := hpk
      exact user_prefix_ne userId (Js.str.inj hpk')

/-- Prefixing with `USER#` is injective. -/
theorem user_prefix_inj {a b : String}
    (h : "USER#" ++ a = "USER#" ++ b) : a = b := by
  have hd := congrArg String.data h
  simp only [String.data_append] at hd
  exact String.ext (List.append_cancel_left hd)

/-- C6: `User.create` attaches `attribute_not_exists(PK)` to the put, and —
since the `userId` embedded in `PK` is the freshly generated identifier —
under the precondition that the generated UUID differs from the id of every
previously created user item, the conditional-check-failure branch is
unreachable: the condition never fails. -/
theorem c6_condition_never_fails (send : Cmd → Js) (bhash : Js → Js)
    (userId now : String) (params : List (String × Js)) (store : DbStore)
    (hfresh : ∀ it ∈ store, ∃ id' now' hp' n' e' m',
      it = User.createItem id' now' hp' n' e' m' ∧ id' ≠ userId) :
    (User.create send bhash userId now params =
      Dynamodb.create send (User.createParams userId now
        (bhash (objGet params "password")) (objGet params "name")
        (objGet params "email") (objGet params "mobile")) ∧
     objGet (User.createParams userId now (bhash (objGet params "password"))
        (objGet params "name") (objGet params "email")
        (objGet params "mobile")) "ConditionExpression" =
       Js.str "attribute_not_exists(PK)") ∧
    putCondFails store (User.createItem userId now
      (bhash (objGet params "password")) (objGet params "name")
      (objGet params "email") (objGet params "mobile")) = false := by
  refine ⟨⟨rfl, rfl⟩, ?_⟩
  rw [Bool.eq_false_iff]
  intro hc
  rcases List.any_eq_true.mp hc with ⟨it, hit, hpred⟩
  rcases hfresh it hit with ⟨id', now', hp', n', e', m', rfl, hne⟩
  rw [Bool.and_eq_true] at hpred
  have hpk := jsStrEq_eq hpred.1
  have h1 : objGet (User.createItem id' now' hp' n' e' m') "PK" =
      Js.str ("USER#" ++ id') := rfl
  have h2 : objGet (User.createItem userId now
      (bhash (objGet params "password")) (objGet params "name")
      (objGet params "email") (objGet params "mobile")) "PK" =
      Js.str ("USER#" ++ userId) := rfl
  rw [h1, h2] at hpk
  exact hne (user_prefix_inj (Js.str.inj hpk))

/-- C6 (witness): with one previously created item for id `"a"` and a fresh
id `"b"`, the `attribute_not_exists(PK)` condition does not fail. -/
theorem c6_condition_never_fails_witness :
    putCondFails
      [User.createItem "a" "t0" (Js.str "h0") (Js.str "n0") (Js.str "e0")
        (Js.str "m0")]
      (User.createItem "b" "t1"
        ((fun _ : Js => Js.str "h1") (objGet [("password", Js.str "pw")]
          "password"))
        (objGet [("password", Js.str "pw")] "name")
        (objGet [("password", Js.str "pw")] "email")
        (objGet [("password", Js.str "pw")] "mobile")) = false :=
  (c6_condition_never_fails (fun _ => Js.obj []) (fun _ : Js => Js.str "h1")
    "b" "t1" [("password", Js.str "pw")]
    [User.createItem "a" "t0" (Js.str "h0") (Js.str "n0") (Js.str "e0")
      (Js.str "m0")]
    (by
      intro it hit
      rw [List.mem_singleton] at hit
      subst hit
      exact ⟨"a", "t0", Js.str "h0", Js.str "n0", Js.str "e0", Js.str "m0",
        rfl, by decide⟩)).2

/-- A `TableName` default prepended before the spread is overridden by a
caller-supplied binding and survives otherwise. -/
theorem lookupLast_tableName_cons (d : Js) (l : List (String × Js)) :
    lookupLast (("TableName", d) :: l) "TableName" =
      (match lookupLast l "TableName" with
       | some v => some v
       | none => some d) := by
  simp only [lookupLast]
  cases lookupLast l "TableName" <;> simp

/-- A prepended binding at a different key does not affect the `TableName`
lookup. -/
theorem lookupLast_skip (k0 : String) (v0 : Js) (l : List (String × Js))
    (h : (k0 == "TableName") = false) :
    lookupLast ((k0, v0) :: l) "TableName" = lookupLast l "TableName" := by
  simp only [lookupLast]
  cases lookupLast l "TableName" <;> simp [h]

/-- Dropping the `limit` and `startKey` bindings (as `scan`'s rest-spread
does) leaves the `TableName` lookup unchanged. -/
theorem lookupLast_scan_rest (params : List (String × Js)) :
    lookupLast (params.filter
      (fun p => !(p.1 == "limit" || p.1 == "startKey"))) "TableName" =
      lookupLast params "TableName" := by
  induction params with
  | nil => rfl
  | cons p rest ih =>
    rw [List.filter_cons]
    by_cases hp : (!(p.1 == "limit" || p.1 == "startKey")) = true
    · rw [if_pos hp]
      simp only [lookupLast, ih]
    · rw [if_neg hp, ih]
      have hdrop : (p.1 == "limit" || p.1 == "startKey") = true := by
        rcases Bool.eq_false_or_eq_true (p.1 == "limit" || p.1 == "startKey")
          with ht | hf
        · exact ht
        · exact absurd (by rw [hf]; rfl) hp
      have hkey : (p.1 == "TableName") = false := by
        rw [Bool.or_eq_true] at hdrop
        rcases hdrop with hl | hs
        · rw [beq_iff_eq.mp hl]
          rfl
        · rw [beq_iff_eq.mp hs]
          rfl
      simp only [lookupLast]
      cases lookupLast rest "TableName" <;> simp [hkey]

/-- C7: for every `Dynamodb` wrapper method and every params argument, the
command sent to the document client carries `TableName` equal to
`params.TableName` when the caller supplied one, and the default
`"SocialApp"` otherwise (the caller's params are merged after the default
and so override it). -/
theorem c7_tableName_default_override (params : List (String × Js)) :
    (lookupLast (Dynamodb.getInput params) "TableName" =
      (match lookupLast params "TableName" with
       | some v => some v
       | none => some (Js.str "SocialApp"))) ∧
    (lookupLast (Dynamodb.createInput params) "TableName" =
      (match lookupLast params "TableName" with
       | some v => some v
       | none => some (Js.str "SocialApp"))) ∧
    (lookupLast (Dynamodb.updateInput params) "TableName" =
      (match lookupLast params "TableName" with
       | some v => some v
       | none => some (Js.str "SocialApp"))) ∧
    (lookupLast (Dynamodb.deleteInput params) "TableName" =
      (match lookupLast params "TableName" with
       | some v => some v
       | none => some (Js.str "SocialApp"))) ∧
    (lookupLast (Dynamodb.queryInput params) "TableName" =
      (match lookupLast params "TableName" with
       | some v => some v
       | none => some (Js.str "SocialApp"))) ∧
    (lookupLast (Dynamodb.scanInput params) "TableName" =
      (match lookupLast params "TableName" with
       | some v => some v
       | none => some (Js.str "SocialApp"))) := by
  refine ⟨?_, ?_, ?_, ?_, ?_, ?_⟩
  · exact lookupLast_tableName_cons (Js.str Dynamodb.TableName) params
  · exact lookupLast_tableName_cons (Js.str Dynamodb.TableName) params
  · exact lookupLast_tableName_cons (Js.str Dynamodb.TableName) params
  · exact lookupLast_tableName_cons (Js.str Dynamodb.TableName) params
  · show lookupLast (("TableName", Js.str Dynamodb.TableName) :: _)
      "TableName" = _
    rw [lookupLast_tableName_cons,
      lookupLast_skip "KeyConditionExpression" _ _ rfl,
      lookupLast_skip "ExpressionAttributeValues" _ _ rfl]
    rfl
  · show lookupLast (("TableName", Js.str Dynamodb.TableName) :: _)
      "TableName" = _
    rw [lookupLast_tableName_cons, lookupLast_skip "Limit" _ _ rfl,
      lookupLast_skip "ExclusiveStartKey" _ _ rfl, lookupLast_scan_rest]
    rfl

/-- C9: when the query issued by `User.getUser` matches no stored item,
`Dynamodb.query` returns the first element of an empty `Items` array
(`undefined`), the controller's `user.password = "****"` assignment throws,
and the response for the nonexistent user is the catch-all HTTP 500 error
envelope — never a 404 and never an empty 200 success body. -/
theorem c9_missing_user_500 (store : DbStore) (userId : String)
    (hmiss : ddbQuery store (Js.str userId) = []) :
    User.getUser (storeSend store) userId = Js.undef ∧
    getUserRoute (storeSend store) userId =
      ⟨500, Js.obj [("error", Js.obj [("message",
        jsGetProp typeErrorSettingPassword "message")])]⟩ ∧
    (getUserRoute (storeSend store) userId).status ≠ 404 ∧
    (getUserRoute (storeSend store) userId).status ≠ 200 := by
  have h1 : User.getUser (storeSend store) userId = Js.undef := by
    rw [getUser_storeSend, hmiss]
    rfl
  have h2 : getUserRoute (storeSend store) userId =
      errorHandler typeErrorSettingPassword := by
    simp only [getUserRoute, getUserCtrl, h1]
    rfl
  refine ⟨h1, ?_, ?_, ?_⟩
  · rw [h2]
    rfl
  · rw [h2]
    decide
  · rw [h2]
    decide

/-- C9 (witness): on the empty table, fetching user `"u1"` yields
`undefined` from the query and the 500 error envelope from the route. -/
theorem c9_missing_user_500_witness :
    User.getUser (storeSend []) "u1" = Js.undef ∧
    getUserRoute (storeSend []) "u1" =
      ⟨500, Js.obj [("error", Js.obj [("message",
        jsGetProp typeErrorSettingPassword "message")])]⟩ ∧
    (getUserRoute (storeSend []) "u1").status ≠ 404 ∧
    (getUserRoute (storeSend []) "u1").status ≠ 200 :=
  c9_missing_user_500 [] "u1" rfl

/-- C10: for every user item the `getUser` controller successfully fetches,
the `data.password` of the 200 response body is the constant `"****"`, and
the whole response is unchanged when the stored password value is replaced
by any other value — the response never reveals the stored bcrypt hash. -/
theorem c10_password_masked (fields : List (String × Js)) (p : Js)
    (userId : String) :
    getUserRoute (storeSend [fields]) userId =
      getUserRoute (storeSend [objSet fields "password" p]) userId ∧
    (objGet fields "PK" = Js.str userId →
      (getUserRoute (storeSend [fields]) userId).status = 200 ∧
      jsGetProp (jsGetProp (getUserRoute (storeSend [fields]) userId).body
        "data") "password" = Js.str "****") := by
  have hnepk : ("PK" : String) ≠ "password" := by decide
  have hPK : objGet (objSet fields "password" p) "PK" = objGet fields "PK" :=
    objGet_objSet_ne fields "password" "PK" p hnepk
  constructor
  · by_cases hb : jsStrEq (objGet fields "PK") (Js.str userId) = true
    · have r1 : User.getUser (storeSend [fields]) userId = Js.obj fields := by
        rw [getUser_storeSend]
        simp only [ddbQuery, List.filter_cons, List.filter_nil, hb]
        rfl
      have r2 : User.getUser (storeSend [objSet fields "password" p]) userId
          = Js.obj (objSet fields "password" p) := by
        rw [getUser_storeSend]
        simp only [ddbQuery, List.filter_cons, List.filter_nil, hPK, hb]
        rfl
      simp only [getUserRoute, getUserCtrl, r1, r2, jsSetProp]
      rw [objSet_objSet]
    · have hb' : jsStrEq (objGet fields "PK") (Js.str userId) = false :=
        Bool.eq_false_iff.mpr hb
      have r1 : User.getUser (storeSend [fields]) userId = Js.undef := by
        rw [getUser_storeSend]
        simp only [ddbQuery, List.filter_cons, List.filter_nil, hb']
        rfl
      have r2 : User.getUser (storeSend [objSet fields "password" p]) userId
          = Js.undef := by
        rw [getUser_storeSend]
        simp only [ddbQuery, List.filter_cons, List.filter_nil, hPK, hb']
        rfl
      simp only [getUserRoute, getUserCtrl, r1, r2]
  · intro hpk
    have hb : jsStrEq (objGet fields "PK") (Js.str userId) = true := by
      rw [hpk]
      simp [jsStrEq]
    have r1 : User.getUser (storeSend [fields]) userId = Js.obj fields := by
      rw [getUser_storeSend]
      simp only [ddbQuery, List.filter_cons, List.filter_nil, hb]
      rfl
    constructor
    · simp only [getUserRoute, getUserCtrl, r1, jsSetProp]
    · simp only [getUserRoute, getUserCtrl, r1, jsSetProp]
      show objGet (objSet fields "password" (Js.str "****")) "password" =
        Js.str "****"
      exact objGet_objSet_self fields "password" (Js.str "****")

/-- C10 (witness): a stored user with `PK = "u1"` and password hash
`"hashA"` is served with `data.password = "****"`, and replacing the hash
by `"hashB"` leaves the response identical. -/
theorem c10_password_masked_witness :
    (getUserRoute (storeSend [[("PK", Js.str "u1"),
        ("password", Js.str "hashA")]]) "u1" =
      getUserRoute (storeSend [objSet [("PK", Js.str "u1"),
        ("password", Js.str "hashA")] "password" (Js.str "hashB")]) "u1") ∧
    (getUserRoute (storeSend [[("PK", Js.str "u1"),
        ("password", Js.str "hashA")]]) "u1").status = 200 ∧
    jsGetProp (jsGetProp (getUserRoute (storeSend [[("PK", Js.str "u1"),
        ("password", Js.str "hashA")]]) "u1").body "data") "password" =
      Js.str "****" :=
  ⟨(c10_password_masked [("PK", Js.str "u1"), ("password", Js.str "hashA")]
      (Js.str "hashB") "u1").1,
   (c10_password_masked [("PK", Js.str "u1"), ("password", Js.str "hashA")]
      (Js.str "hashB") "u1").2 rfl⟩
